import Mathlib

/-!
Shallow embedding of the form-input controller of `form-inputs-react`.

The heart of the repository is the custom hook in
`src/code/01-starting-project/src/hooks/use-input.js`: a two-field reducer
state (`enteredValue`, `isTouched`), a reducer `inputStateReducer`
dispatching on the string `action.type`, three handlers that build the
dispatched actions, and two derived outputs (`isValid`, `hasError`).
The earlier multiple-`useState` component `SimpleInput`
(`src/unnamed/part_000`) is embedded as well for the refinement claim.

JavaScript values that flow through the program (strings, booleans, the
`undefined` carried by an omitted `value` property) are embedded as the
inductive `JsValue`; JS truthiness, `!` and `&&` are embedded by
`JsValue.truthy`, `jsNot` and `jsAnd` (JS `a && b` returns `a` when `a`
is falsy and `b` otherwise).  JS `String.prototype.trim` (drop leading
and trailing whitespace) is embedded as the executable `jsTrim`.
-/

/-- A JavaScript value as used by this program: a string, a boolean, or
`undefined` (the value of an absent object property). -/
inductive JsValue where
  | str (s : String)
  | boolean (b : Bool)
  | undef
deriving DecidableEq, Repr

/-- JS truthiness: `""` and `false` and `undefined` are falsy; every other
string and `true` are truthy. -/
def JsValue.truthy : JsValue → Bool
  | .str s => s != ""
  | .boolean b => b
  | .undef => false

/-- JS logical negation `!v`: always a boolean. -/
def jsNot (v : JsValue) : JsValue := .boolean (!v.truthy)

/-- JS `a && b`: returns `a` when `a` is falsy, else `b`. -/
def jsAnd (a b : JsValue) : JsValue := if a.truthy then b else a

/-- The reducer state of `use-input.js`: `{ enteredValue, isTouched }`. -/
structure InputState where
  enteredValue : JsValue
  isTouched : JsValue
deriving DecidableEq, Repr

/-- `INITIAL_INPUT_STATE = { enteredValue: "", isTouched: false }`
(use-input.js lines 9-12). -/
def INITIAL_INPUT_STATE : InputState :=
  { enteredValue := .str "", isTouched := .boolean false }

/-- A dispatched action `{ type, value }`; `reset` omits the `value`
property, so its `value` reads as `undefined`. -/
structure InputAction where
  type : String
  value : JsValue
deriving DecidableEq, Repr

/-- `inputStateReducer` (use-input.js lines 28-38): switch on
`action.type`; `"RESET_INPUT"` falls through with `default` to the
initial state. -/
def inputStateReducer (state : InputState) (action : InputAction) : InputState :=
  match action.type with
  | "VALUE_CHANGED" =>
      { enteredValue := action.value, isTouched := state.isTouched }
  | "INPUT_BLUR" =>
      { enteredValue := state.enteredValue, isTouched := action.value }
  | _ => INITIAL_INPUT_STATE

/-- The action dispatched by `valueChangeHandler` (use-input.js line 68):
`{ type: "VALUE_CHANGED", value: event.target.value }`.  A DOM text
input's `event.target.value` is always a string. -/
def valueChangeHandler (eventTargetValue : String) : InputAction :=
  { type := "VALUE_CHANGED", value := .str eventTargetValue }

/-- The action dispatched by `inputBlurHandler` (use-input.js line 80):
`{ type: "INPUT_BLUR", value: true }`. -/
def inputBlurHandler : InputAction :=
  { type := "INPUT_BLUR", value := .boolean true }

/-- The action dispatched by `reset` (use-input.js line 86):
`{ type: "RESET_INPUT" }` with no `value` property. -/
def resetAction : InputAction :=
  { type := "RESET_INPUT", value := .undef }

/-- The `onChange` operation of the controller: dispatch the
value-changed action through the reducer. -/
def onChange (s : String) (st : InputState) : InputState :=
  inputStateReducer st (valueChangeHandler s)

/-- The `onBlur` operation of the controller. -/
def onBlur (st : InputState) : InputState :=
  inputStateReducer st inputBlurHandler

/-- The `reset` operation of the controller. -/
def resetOp (st : InputState) : InputState :=
  inputStateReducer st resetAction

/-- Dispatch a whole list of actions in order. -/
def applyActions (st : InputState) (acts : List InputAction) : InputState :=
  acts.foldl inputStateReducer st

/-- The object returned by `useInput` (use-input.js lines 88-95),
restricted to its data outputs. -/
structure UseInputResult where
  value : JsValue
  isValid : JsValue
  hasError : JsValue
deriving DecidableEq, Repr

/-- The derived outputs of `useInput` for a given caller-supplied
`validateValue` and current reducer state (use-input.js lines 57-59):
`valueIsValid = validateValue(inputState.enteredValue)`;
`hasError = !valueIsValid && inputState.isTouched`. -/
def useInputOutputs (validateValue : JsValue → JsValue)
    (inputState : InputState) : UseInputResult :=
  let valueIsValid := validateValue inputState.enteredValue
  let hasError := jsAnd (jsNot valueIsValid) inputState.isTouched
  { value := inputState.enteredValue
    isValid := valueIsValid
    hasError := hasError }

/-- JS `s.trim()`: the string with leading and trailing whitespace
removed. -/
def jsTrim (s : String) : String :=
  String.mk (((s.data.dropWhile Char.isWhitespace).reverse.dropWhile
    Char.isWhitespace).reverse)

/-- The non-empty-after-trim predicate used throughout the repository
(`src/unnamed/part_000` line 8): `enteredName.trim() !== ""`. -/
def enteredNameIsValid (s : String) : Bool := jsTrim s != ""

/-! ### Theorems for the claims -/

/-- C1: for every input state and every validity predicate, the derived
output `hasError` is true iff `touched` is true and `predicate(value)`
is false, and `isValid` equals `predicate(value)` recomputed on the
current value. -/
theorem C1_hasError_iff_touched_and_invalid
    (f : JsValue → JsValue) (st : InputState) (t b : Bool)
    (ht : st.isTouched = .boolean t)
    (hb : f st.enteredValue = .boolean b) :
    (useInputOutputs f st).hasError = .boolean (t && !b)
    ∧ (useInputOutputs f st).isValid = f st.enteredValue := by
  refine ⟨?_, rfl⟩
  simp only [useInputOutputs, jsAnd, jsNot, ht, hb, JsValue.truthy]
  cases b <;> cases t <;> simp

/-- Witness for C1 at a concrete predicate and state. -/
theorem C1_hasError_iff_touched_and_invalid_witness :
    (useInputOutputs (fun _ => .boolean false)
        { enteredValue := .str "x", isTouched := .boolean true }).hasError
      = .boolean (true && !false)
    ∧ (useInputOutputs (fun _ => .boolean false)
        { enteredValue := .str "x", isTouched := .boolean true }).isValid
      = (fun _ => JsValue.boolean false) (JsValue.str "x") :=
  C1_hasError_iff_touched_and_invalid (fun _ => .boolean false)
    { enteredValue := .str "x", isTouched := .boolean true } true false rfl rfl

/-- C2: for every string `s` and every prior input state, `onChange(s)`
followed by reading the `value` output returns exactly `s`. -/
theorem C2_onChange_then_value (s : String) (st : InputState)
    (f : JsValue → JsValue) :
    (useInputOutputs f (onChange s st)).value = .str s := rfl

/-- C3: `onChange` replaces the value field with `s` and leaves the
touched field unchanged, for every prior state (and, being a total
function, never fails). -/
theorem C3_onChange_frame (s : String) (st : InputState) :
    (onChange s st).enteredValue = .str s
    ∧ (onChange s st).isTouched = st.isTouched := ⟨rfl, rfl⟩

/-- C4: `onBlur` sets the touched field to `true` and leaves the value
field unchanged, for every prior state. -/
theorem C4_onBlur_sets_touched (st : InputState) :
    (onBlur st).isTouched = .boolean true
    ∧ (onBlur st).enteredValue = st.enteredValue := ⟨rfl, rfl⟩

/-- C5: `reset` returns any state to the initial state; hence `reset`
after any sequence of dispatched actions equals `reset`, and `reset` is
idempotent. -/
theorem C5_reset_to_initial (st : InputState) :
    resetOp st = INITIAL_INPUT_STATE
    ∧ (∀ acts : List InputAction, resetOp (applyActions st acts) = resetOp st)
    ∧ resetOp (resetOp st) = resetOp st :=
  ⟨rfl, fun _ => rfl, rfl⟩

/-- One user-level operation of the hook, as dispatched by the three
handlers of `useInput`. -/
inductive HookOp where
  | change (s : String)
  | blur
  | reset
deriving DecidableEq, Repr

/-- The action each hook operation dispatches. -/
def HookOp.toAction : HookOp → InputAction
  | .change s => valueChangeHandler s
  | .blur => inputBlurHandler
  | .reset => resetAction

/-- Run one hook operation through the reducer. -/
def applyHookOp (st : InputState) (op : HookOp) : InputState :=
  inputStateReducer st op.toAction

/-- Run a list of hook operations in order. -/
def applyHookOps (st : InputState) (ops : List HookOp) : InputState :=
  ops.foldl applyHookOp st

/-- The value the spec predicts after a trace: the string of the last
`change` since the most recent `reset` (or `""` if none). -/
def lastChangeStep (acc : String) : HookOp → String
  | .change s => s
  | .blur => acc
  | .reset => ""

/-- The spec-predicted value of a whole trace started at the initial
state. -/
def lastChangeSinceReset (ops : List HookOp) : String :=
  ops.foldl lastChangeStep ""

theorem applyHookOps_enteredValue (ops : List HookOp) :
    ∀ (st : InputState) (v : String), st.enteredValue = .str v →
      (applyHookOps st ops).enteredValue = .str (ops.foldl lastChangeStep v) := by
  induction ops with
  | nil => intro st v h; exact h
  | cons op rest ih =>
    intro st v h
    cases op with
    | change s => exact ih _ s rfl
    | blur => exact ih _ v h
    | reset => exact ih _ "" rfl

/-- C6: in every state reachable from the initial state, the value field
is the string of the last `change` since the most recent `reset` (or
`""`); and the touched flag is preserved at `true` by every non-reset
operation (it never falls back to `false`), while `reset` sets it back
to `false`. -/
theorem C6_reachable_invariants (ops : List HookOp) (st : InputState)
    (op : HookOp) (hop : op ≠ HookOp.reset)
    (ht : st.isTouched = .boolean true) :
    (applyHookOps INITIAL_INPUT_STATE ops).enteredValue
        = .str (lastChangeSinceReset ops)
    ∧ (applyHookOp st op).isTouched = .boolean true
    ∧ (applyHookOp st HookOp.reset).isTouched = .boolean false := by
  refine ⟨applyHookOps_enteredValue ops INITIAL_INPUT_STATE "" rfl, ?_, rfl⟩
  cases op with
  | change s => exact ht
  | blur => rfl
  | reset => exact absurd rfl hop

/-- Witness for C6 at a concrete trace, state and operation. -/
theorem C6_reachable_invariants_witness :
    (applyHookOps INITIAL_INPUT_STATE
        [HookOp.change "a", HookOp.blur, HookOp.change "ab"]).enteredValue
      = .str (lastChangeSinceReset
        [HookOp.change "a", HookOp.blur, HookOp.change "ab"])
    ∧ (applyHookOp { enteredValue := .str "a", isTouched := .boolean true }
        HookOp.blur).isTouched = .boolean true
    ∧ (applyHookOp { enteredValue := .str "a", isTouched := .boolean true }
        HookOp.reset).isTouched = .boolean false :=
  C6_reachable_invariants
    [HookOp.change "a", HookOp.blur, HookOp.change "ab"]
    { enteredValue := .str "a", isTouched := .boolean true }
    HookOp.blur (by decide) rfl

/-- The non-empty-after-trim predicate extended to a total JS function
on `JsValue`, used to instantiate validator-parametric theorems; its
behaviour on non-strings (where the JS function would throw) is
irrelevant to every use. -/
def trimValidator : JsValue → JsValue
  | .str s => .boolean (enteredNameIsValid s)
  | v => v

/-- C7: under the non-empty-after-trim predicate, `onChange("  ")` makes
`isValid` false and `onChange("Sam")` makes `isValid` true, from any
prior state. -/
theorem C7_trim_examples (f : JsValue → JsValue)
    (hf : ∀ s, f (.str s) = .boolean (enteredNameIsValid s))
    (st : InputState) :
    (useInputOutputs f (onChange "  " st)).isValid = .boolean false
    ∧ (useInputOutputs f (onChange "Sam" st)).isValid = .boolean true := by
  constructor
  · have h : (useInputOutputs f (onChange "  " st)).isValid
        = f (.str "  ") := rfl
    rw [h, hf]
    decide
  · have h : (useInputOutputs f (onChange "Sam" st)).isValid
        = f (.str "Sam") := rfl
    rw [h, hf]
    decide

/-- Witness for C7 with the concrete validator, from the initial state. -/
theorem C7_trim_examples_witness :
    (useInputOutputs trimValidator
        (onChange "  " INITIAL_INPUT_STATE)).isValid = .boolean false
    ∧ (useInputOutputs trimValidator
        (onChange "Sam" INITIAL_INPUT_STATE)).isValid = .boolean true :=
  C7_trim_examples trimValidator (fun _ => rfl) INITIAL_INPUT_STATE

/-- C8: the reducer is a total function: for every state and every
action it returns one of three well-formed states (both fields present),
with no error or exception branch. -/
theorem C8_reducer_total (st : InputState) (a : InputAction) :
    inputStateReducer st a
        = { enteredValue := a.value, isTouched := st.isTouched }
    ∨ inputStateReducer st a
        = { enteredValue := st.enteredValue, isTouched := a.value }
    ∨ inputStateReducer st a = INITIAL_INPUT_STATE := by
  unfold inputStateReducer
  split
  · exact Or.inl rfl
  · exact Or.inr (Or.inl rfl)
  · exact Or.inr (Or.inr rfl)

/-- The local state of the multiple-`useState` `SimpleInput` component
(`src/unnamed/part_000` lines 4-5). -/
structure SimpleInputState where
  enteredName : String
  enteredNameTouched : Bool
deriving DecidableEq, Repr

/-- Both `useState` calls start at `""` and `false`. -/
def SIMPLE_INPUT_INITIAL : SimpleInputState :=
  { enteredName := "", enteredNameTouched := false }

/-- `nameInputChangeHandler`: `setEnteredName(event.target.value)`. -/
def nameInputChangeHandler (eventTargetValue : String)
    (st : SimpleInputState) : SimpleInputState :=
  { st with enteredName := eventTargetValue }

/-- `nameInputBlurHandler`: `setEnteredNameTouched(true)`. -/
def nameInputBlurHandler (st : SimpleInputState) : SimpleInputState :=
  { st with enteredNameTouched := true }

/-- Derived in `SimpleInput`:
`nameInputIsInvalid = !enteredNameIsValid && enteredNameTouched`. -/
def nameInputIsInvalid (st : SimpleInputState) : Bool :=
  !enteredNameIsValid st.enteredName && st.enteredNameTouched

/-- A user event both versions of the component handle. -/
inductive FieldEvent where
  | change (s : String)
  | blur
deriving DecidableEq, Repr

/-- Run one event through the reducer-based hook. -/
def FieldEvent.applyHook (st : InputState) : FieldEvent → InputState
  | .change s => onChange s st
  | .blur => onBlur st

/-- Run one event through the `useState` component. -/
def FieldEvent.applySimple (st : SimpleInputState) :
    FieldEvent → SimpleInputState
  | .change s => nameInputChangeHandler s st
  | .blur => nameInputBlurHandler st

/-- Run a trace through the hook from the initial state. -/
def runHook (evs : List FieldEvent) : InputState :=
  evs.foldl FieldEvent.applyHook INITIAL_INPUT_STATE

/-- Run a trace through the `useState` component from its initial
state. -/
def runSimple (evs : List FieldEvent) : SimpleInputState :=
  evs.foldl FieldEvent.applySimple SIMPLE_INPUT_INITIAL

theorem hook_simple_correspondence (evs : List FieldEvent) :
    ∀ (st : InputState) (sst : SimpleInputState),
      st.enteredValue = .str sst.enteredName →
      st.isTouched = .boolean sst.enteredNameTouched →
      (evs.foldl FieldEvent.applyHook st).enteredValue
          = .str (evs.foldl FieldEvent.applySimple sst).enteredName
      ∧ (evs.foldl FieldEvent.applyHook st).isTouched
          = .boolean (evs.foldl FieldEvent.applySimple sst).enteredNameTouched := by
  induction evs with
  | nil => intro st sst h1 h2; exact ⟨h1, h2⟩
  | cons ev rest ih =>
    intro st sst h1 h2
    cases ev with
    | change s => exact ih _ _ rfl h2
    | blur => exact ih _ _ h1 rfl

/-- C9: the reducer-based hook refines the `useState` component: started
from the same initial state, every trace of change and blur events
yields the same (value, touched) pair, and the derived validity and
error flags agree under the non-empty-after-trim predicate. -/
theorem C9_hook_refines_useState (f : JsValue → JsValue)
    (hf : ∀ s, f (.str s) = .boolean (enteredNameIsValid s))
    (evs : List FieldEvent) :
    (runHook evs).enteredValue = .str (runSimple evs).enteredName
    ∧ (runHook evs).isTouched
        = .boolean (runSimple evs).enteredNameTouched
    ∧ (useInputOutputs f (runHook evs)).isValid
        = .boolean (enteredNameIsValid (runSimple evs).enteredName)
    ∧ (useInputOutputs f (runHook evs)).hasError
        = .boolean (nameInputIsInvalid (runSimple evs)) := by
  simp only [runHook, runSimple]
  obtain ⟨h1, h2⟩ := hook_simple_correspondence evs INITIAL_INPUT_STATE
    SIMPLE_INPUT_INITIAL rfl rfl
  refine ⟨h1, h2, ?_, ?_⟩
  · show f (evs.foldl FieldEvent.applyHook INITIAL_INPUT_STATE).enteredValue
        = _
    rw [h1, hf]
  · show jsAnd
        (jsNot (f (evs.foldl FieldEvent.applyHook
          INITIAL_INPUT_STATE).enteredValue))
        (evs.foldl FieldEvent.applyHook INITIAL_INPUT_STATE).isTouched = _
    rw [h1, h2, hf]
    simp only [jsAnd, jsNot, JsValue.truthy, nameInputIsInvalid]
    cases hp : enteredNameIsValid
        (evs.foldl FieldEvent.applySimple SIMPLE_INPUT_INITIAL).enteredName <;>
      cases ht : (evs.foldl FieldEvent.applySimple
          SIMPLE_INPUT_INITIAL).enteredNameTouched <;>
        simp [hp, ht]

/-- Witness for C9 with the concrete validator on a concrete trace. -/
theorem C9_hook_refines_useState_witness :
    (runHook [FieldEvent.change "Sam", FieldEvent.blur]).enteredValue
        = .str (runSimple [FieldEvent.change "Sam", FieldEvent.blur]).enteredName
    ∧ (runHook [FieldEvent.change "Sam", FieldEvent.blur]).isTouched
        = .boolean (runSimple [FieldEvent.change "Sam",
            FieldEvent.blur]).enteredNameTouched
    ∧ (useInputOutputs trimValidator
        (runHook [FieldEvent.change "Sam", FieldEvent.blur])).isValid
        = .boolean (enteredNameIsValid
            (runSimple [FieldEvent.change "Sam", FieldEvent.blur]).enteredName)
    ∧ (useInputOutputs trimValidator
        (runHook [FieldEvent.change "Sam", FieldEvent.blur])).hasError
        = .boolean (nameInputIsInvalid
            (runSimple [FieldEvent.change "Sam", FieldEvent.blur])) :=
  C9_hook_refines_useState trimValidator (fun _ => rfl)
    [FieldEvent.change "Sam", FieldEvent.blur]

/-- C10: dispatching any action whose type is neither `"VALUE_CHANGED"`
nor `"INPUT_BLUR"` behaves exactly like reset: the reducer's default
branch returns the initial state, discarding the current value and
touched flag. -/
theorem C10_unknown_type_resets (st : InputState) (a : InputAction)
    (h1 : a.type ≠ "VALUE_CHANGED") (h2 : a.type ≠ "INPUT_BLUR") :
    inputStateReducer st a = INITIAL_INPUT_STATE := by
  unfold inputStateReducer
  split <;> simp_all

/-- Witness for C10: an unrecognized action type from a non-initial
state. -/
theorem C10_unknown_type_resets_witness :
    inputStateReducer
        { enteredValue := .str "abc", isTouched := .boolean true }
        { type := "BOGUS", value := .undef } = INITIAL_INPUT_STATE :=
  C10_unknown_type_resets
    { enteredValue := .str "abc", isTouched := .boolean true }
    { type := "BOGUS", value := .undef } (by decide) (by decide)
